import Mathlib

/-!
Shallow embedding of the draft-deck-backend thesis workflow core:
the status model (`src/domain/value_objects/status.py`), the Thesis and
Feedback aggregates (`src/domain/entities/thesis.py`, `feedback.py`),
the feedback / submit-thesis use cases
(`src/application/use_cases/...`) and the status-transition and
advisor-assignment routes (`src/api/routes/thesis_routes.py`).

Modelling conventions:
* UUIDs are `Nat`; `datetime.utcnow()` is an explicit `now : Nat`
  argument (the two `utcnow()` calls inside one method are the same
  transition instant).
* Python exceptions become `Except DomainError _`; raising before any
  assignment corresponds to returning `.error` with the input record
  untouched.
* Python truthiness: an `Optional[str]` is truthy iff it is a non-empty
  string; a UUID object is always truthy, so the source checks
  `if not self.student_id` / `if not self.thesis_id` on non-optional
  UUID fields can never fire and are omitted; membership checks of an
  enum value in the full enum list are likewise vacuous and omitted.
* Float comment positions are never computed on, so they are carried as
  `Int` stand-ins.
-/

namespace DraftDeck

inductive UserRole
  | student
  | advisor
  | admin
deriving DecidableEq, Repr

inductive ThesisStatus
  | draft
  | submitted
  | under_review
  | needs_revision
  | approved
  | rejected
deriving DecidableEq, Repr

inductive ThesisType
  | draft
  | final
deriving DecidableEq, Repr

/-- `VALID_STATUS_TRANSITIONS` from `src/domain/value_objects/status.py`
(lines 53-60). APPROVED and REJECTED are terminal. -/
def VALID_STATUS_TRANSITIONS : ThesisStatus → List ThesisStatus
  | .draft => [.submitted]
  | .submitted => [.under_review]
  | .under_review => [.needs_revision, .approved, .rejected]
  | .needs_revision => [.submitted]
  | .approved => []
  | .rejected => []

/-- The typed domain exceptions from
`src/domain/exceptions/domain_exceptions.py`. -/
inductive DomainError
  | validation (msg : String)
  | entityNotFound (entityType : String) (entityId : Nat)
  | invalidStatusTransition (current target : ThesisStatus)
  | fileStorage (msg : String)
deriving DecidableEq, Repr

/-- Thesis entity (`src/domain/entities/thesis.py`). The `metadata`
dict is carried as an association list. -/
structure Thesis where
  title : String
  student_id : Nat
  thesis_type : ThesisType
  id : Nat
  advisor_id : Option Nat := none
  file_path : Option String := none
  file_name : Option String := none
  file_size : Option Nat := none
  file_type : Option String := none
  description : Option String := none
  status : ThesisStatus := .draft
  version : Nat := 1
  submitted_at : Option Nat := none
  approved_at : Option Nat := none
  rejected_at : Option Nat := none
  created_at : Nat := 0
  updated_at : Option Nat := none
  metadata : List (String × String) := []
deriving DecidableEq, Repr

/-- `Thesis._validate`: of its four checks only the title check can
fire in a typed embedding (the student-UUID truthiness check and the
two enum-membership checks are vacuous, see header). -/
def Thesis.validate (t : Thesis) : Except DomainError Unit :=
  if t.title = "" then .error (.validation "Thesis title is required")
  else .ok ()

/-- `Thesis.update_status` (thesis.py lines 50-65): reject a target not
in the transition table for the current status; on success set the
status, refresh `updated_at`, and unconditionally stamp the side
timestamp of the entered state. -/
def Thesis.update_status (t : Thesis) (new_status : ThesisStatus) (now : Nat) :
    Except DomainError Thesis :=
  if new_status ∉ VALID_STATUS_TRANSITIONS t.status then
    .error (.invalidStatusTransition t.status new_status)
  else
    let t1 := { t with status := new_status, updated_at := some now }
    let t2 :=
      if new_status = ThesisStatus.submitted then { t1 with submitted_at := some now }
      else if new_status = ThesisStatus.approved then { t1 with approved_at := some now }
      else if new_status = ThesisStatus.rejected then { t1 with rejected_at := some now }
      else t1
    .ok t2

/-- `Thesis.update_file_info` (thesis.py lines 67-73). -/
def Thesis.update_file_info (t : Thesis) (fp fn : String) (fs : Nat) (ft : String)
    (now : Nat) : Thesis :=
  { t with file_path := some fp, file_name := some fn, file_size := some fs,
           file_type := some ft, updated_at := some now }

/-- `Thesis.assign_advisor` (thesis.py lines 75-78): unconditional
overwrite, no check whether an advisor is already assigned. -/
def Thesis.assign_advisor (t : Thesis) (advisor_id : Nat) (now : Nat) : Thesis :=
  { t with advisor_id := some advisor_id, updated_at := some now }

/-- `Thesis.increment_version` (thesis.py lines 85-88). -/
def Thesis.increment_version (t : Thesis) (now : Nat) : Thesis :=
  { t with version := t.version + 1, updated_at := some now }

/-- Python truthiness of an `Optional[str]` argument. -/
def truthyStr : Option String → Bool
  | none => false
  | some s => s ≠ ""

/-- `Thesis.update_title_description` (thesis.py lines 90-99):
`if title:` skips a `None` or empty title, `if description:` likewise;
then `updated_at` is refreshed and `_validate` re-runs. -/
def Thesis.update_title_description (t : Thesis) (title description : Option String)
    (now : Nat) : Except DomainError Thesis :=
  let t1 := if truthyStr title then { t with title := title.getD t.title } else t
  let t2 := if truthyStr description then { t1 with description := description } else t1
  let t3 := { t2 with updated_at := some now }
  match t3.validate with
  | .error e => .error e
  | .ok _ => .ok t3

/-- FeedbackComment (`src/domain/entities/feedback.py` lines 9-17);
the fresh uuid4 id is supplied by the caller of `add_comment`. -/
structure FeedbackComment where
  content : String
  page : Option Nat := none
  position_x : Option Int := none
  position_y : Option Int := none
  id : Nat
  created_at : Nat := 0
deriving DecidableEq, Repr

/-- Feedback entity (feedback.py lines 20-31). -/
structure Feedback where
  thesis_id : Nat
  advisor_id : Nat
  overall_comments : String
  id : Nat
  comments : List FeedbackComment := []
  rating : Option Int := none
  recommendations : Option String := none
  created_at : Nat := 0
  updated_at : Option Nat := none
deriving DecidableEq, Repr

/-- `Feedback._validate` (feedback.py lines 36-48): the two UUID
truthiness checks are vacuous (header); the live checks are the
non-empty overall comments and the rating range. -/
def Feedback.validate (f : Feedback) : Except DomainError Unit :=
  if f.overall_comments = "" then .error (.validation "Overall comments are required")
  else
    match f.rating with
    | some r =>
        if r < 1 ∨ r > 5 then .error (.validation "Rating must be between 1 and 5")
        else .ok ()
    | none => .ok ()

/-- Feedback construction: the dataclass constructor followed by
`__post_init__` running `_validate`. -/
def mkFeedback (thesis_id advisor_id : Nat) (overall_comments : String) (id : Nat)
    (rating : Option Int) (recommendations : Option String) (created_at : Nat) :
    Except DomainError Feedback :=
  let f : Feedback :=
    { thesis_id, advisor_id, overall_comments, id, rating, recommendations, created_at }
  match f.validate with
  | .error e => .error e
  | .ok _ => .ok f

/-- `Feedback.add_comment` (feedback.py lines 50-61): append the new
comment, refresh `updated_at`, return the new comment id. -/
def Feedback.add_comment (f : Feedback) (content : String) (page : Option Nat)
    (position_x position_y : Option Int) (cid : Nat) (now : Nat) : Feedback × Nat :=
  let comment : FeedbackComment :=
    { content, page, position_x, position_y, id := cid, created_at := now }
  ({ f with comments := f.comments ++ [comment], updated_at := some now }, cid)

/-- The in-place loop of `Feedback.update_comment`: rewrite the content
of the first comment with the given id, report whether one was found. -/
def updateCommentList : List FeedbackComment → Nat → String → Bool × List FeedbackComment
  | [], _, _ => (false, [])
  | c :: rest, cid, content =>
      if c.id = cid then (true, { c with content := content } :: rest)
      else
        let r := updateCommentList rest cid content
        (r.1, c :: r.2)

/-- `Feedback.update_comment` (feedback.py lines 63-70): `updated_at`
is refreshed only when the comment was found. -/
def Feedback.update_comment (f : Feedback) (comment_id : Nat) (content : String)
    (now : Nat) : Bool × Feedback :=
  let r := updateCommentList f.comments comment_id content
  if r.1 then (true, { f with comments := r.2, updated_at := some now })
  else (false, f)

/-- `Feedback.remove_comment` (feedback.py lines 72-81): filter out the
id, refresh `updated_at` and return true only when the list shrank. -/
def Feedback.remove_comment (f : Feedback) (comment_id : Nat) (now : Nat) :
    Bool × Feedback :=
  let remaining := f.comments.filter (fun c => c.id ≠ comment_id)
  if remaining.length < f.comments.length then
    (true, { f with comments := remaining, updated_at := some now })
  else (false, { f with comments := remaining })

/-- `Feedback.update_overall_feedback` (feedback.py lines 83-99):
truthy-guarded partial updates, an eager rating range check, then a
full `_validate` re-run. -/
def Feedback.update_overall_feedback (f : Feedback) (overall_comments : Option String)
    (rating : Option Int) (recommendations : Option String) (now : Nat) :
    Except DomainError Feedback :=
  let f1 := if truthyStr overall_comments then
      { f with overall_comments := overall_comments.getD f.overall_comments } else f
  match rating with
  | some r =>
      if r < 1 ∨ r > 5 then .error (.validation "Rating must be between 1 and 5")
      else
        let f2 := { f1 with rating := some r }
        let f3 := if truthyStr recommendations then
            { f2 with recommendations := recommendations } else f2
        let f4 := { f3 with updated_at := some now }
        match f4.validate with
        | .error e => .error e
        | .ok _ => .ok f4
  | none =>
      let f3 := if truthyStr recommendations then
          { f1 with recommendations := recommendations } else f1
      let f4 := { f3 with updated_at := some now }
      match f4.validate with
      | .error e => .error e
      | .ok _ => .ok f4

/-- User entity (`src/domain/entities/user.py`), restricted to the
fields the modelled use cases and routes consume. -/
structure User where
  id : Nat
  email : String := ""
  first_name : String := ""
  last_name : String := ""
  role : UserRole
deriving DecidableEq, Repr

/-- The repository collaborators (user, thesis, feedback), modelled as
in-memory lists; `get_by_id` is first-match lookup, `update` replaces
every record with a matching id, `create` appends. -/
structure RepoState where
  users : List User
  theses : List Thesis
  feedbacks : List Feedback
deriving DecidableEq, Repr

def getUserById (st : RepoState) (uid : Nat) : Option User :=
  st.users.find? (fun u => u.id = uid)

def getThesisById (st : RepoState) (tid : Nat) : Option Thesis :=
  st.theses.find? (fun t => t.id = tid)

def updateThesisRepo (st : RepoState) (t : Thesis) : RepoState :=
  { st with theses := st.theses.map (fun x => if x.id = t.id then t else x) }

/-- `FeedbackCommentCreateDTO` (`src/application/dtos/feedback_dto.py`). -/
structure FeedbackCommentCreateDTO where
  content : String
  page : Option Nat := none
  position_x : Option Int := none
  position_y : Option Int := none
deriving DecidableEq, Repr

/-- `FeedbackCreateDTO` (feedback_dto.py). -/
structure FeedbackCreateDTO where
  thesis_id : Nat
  overall_comments : String
  rating : Option Int := none
  recommendations : Option String := none
  comments : List FeedbackCommentCreateDTO := []
deriving DecidableEq, Repr

/-- The check `if thesis.advisor_id and thesis.advisor_id != advisor_id`
in `ProvideFeedbackUseCase.execute` (a UUID is truthy, `None` falsy). -/
def advisorMismatch : Option Nat → Nat → Bool
  | none, _ => false
  | some a, aid => a ≠ aid

/-- The `for comment_dto in dto.comments: feedback.add_comment(...)`
loop of `ProvideFeedbackUseCase.execute`, with fresh comment ids drawn
sequentially from `cid0`. -/
def addCommentsFromDTO (f : Feedback) (cs : List FeedbackCommentCreateDTO)
    (cid0 now : Nat) : Feedback :=
  match cs with
  | [] => f
  | c :: rest =>
      let f1 := (f.add_comment c.content c.page c.position_x c.position_y cid0 now).1
      addCommentsFromDTO f1 rest (cid0 + 1) now

/-- `ProvideFeedbackUseCase.execute`
(`src/application/use_cases/feedback/provide_feedback_use_case.py`
lines 29-113): look up the advisor and the thesis, check the advisor
role, the thesis status and the advisor assignment, auto-assign when
unassigned, auto-advance SUBMITTED to UNDER_REVIEW, build the feedback
with its comments and persist it. The fresh uuid4 values are supplied
as `fid` (feedback id) and `cid0` (first comment id); the best-effort
notification has no effect on the modelled state. -/
def ProvideFeedbackUseCase.execute (st : RepoState) (dto : FeedbackCreateDTO)
    (advisor_id fid cid0 now : Nat) : Except DomainError (RepoState × Feedback) :=
  match getUserById st advisor_id with
  | none => .error (.entityNotFound "User" advisor_id)
  | some advisor =>
    if advisor.role ≠ UserRole.advisor then
      .error (.validation "Only advisors can provide feedback")
    else
      match getThesisById st dto.thesis_id with
      | none => .error (.entityNotFound "Thesis" dto.thesis_id)
      | some thesis =>
        if thesis.status ∉ [ThesisStatus.submitted, ThesisStatus.under_review] then
          .error (.validation "Cannot provide feedback on thesis with this status")
        else if advisorMismatch thesis.advisor_id advisor_id then
          .error (.validation "You are not assigned to this thesis")
        else
          let p1 : Thesis × RepoState :=
            if thesis.advisor_id = none then
              let t := thesis.assign_advisor advisor_id now
              (t, updateThesisRepo st t)
            else (thesis, st)
          let step2 : Except DomainError (Thesis × RepoState) :=
            if p1.1.status = ThesisStatus.submitted then
              match p1.1.update_status ThesisStatus.under_review now with
              | .ok t => .ok (t, updateThesisRepo p1.2 t)
              | .error e => .error e
            else .ok p1
          match step2 with
          | .error e => .error e
          | .ok p2 =>
            match mkFeedback dto.thesis_id advisor_id dto.overall_comments fid
                dto.rating dto.recommendations now with
            | .error e => .error e
            | .ok fb0 =>
              let fb := addCommentsFromDTO fb0 dto.comments cid0 now
              .ok ({ p2.2 with feedbacks := p2.2.feedbacks ++ [fb] }, fb)

/-- The permission part of `ProvideFeedbackUseCase.execute`
(lines 44-64): the conjunction of its advisor-role check, its
thesis-status check and its advisor-assignment check, as a pure
predicate of (actor role, actor id, thesis). -/
def feedbackPermissionChecks (role : UserRole) (actor_id : Nat) (thesis : Thesis) : Bool :=
  decide (role = UserRole.advisor)
    && decide (thesis.status ∈ [ThesisStatus.submitted, ThesisStatus.under_review])
    && !(advisorMismatch thesis.advisor_id actor_id)

/-- Modelled from the spec (section 4.4): the pure predicate
`canProvideFeedback(actor, thesis)` = actor role is ADVISOR AND (thesis
has no advisor assigned OR actor is the assigned advisor) AND
thesis.status is SUBMITTED or UNDER_REVIEW. The source has no such
standalone function; its checks live inline in the use case, embedded
above as `feedbackPermissionChecks`. -/
def canProvideFeedbackSpec (role : UserRole) (actor_id : Nat) (thesis : Thesis) : Bool :=
  decide (role = UserRole.advisor)
    && (decide (thesis.advisor_id = none) || decide (thesis.advisor_id = some actor_id))
    && decide (thesis.status ∈ [ThesisStatus.submitted, ThesisStatus.under_review])

/-- `ThesisCreateDTO` (`src/application/dtos/thesis_dto.py`):
`thesis_type` arrives as a raw string and is parsed in the use case. -/
structure ThesisCreateDTO where
  title : String
  description : Option String := none
  thesis_type : String
  metadata : List (String × String) := []
deriving DecidableEq, Repr

/-- `str.lower()`: ASCII lowercasing written over the character list
so that it evaluates by kernel reduction. -/
def lowerString (s : String) : String :=
  String.mk (s.data.map Char.toLower)

/-- The `ThesisType(dto.thesis_type.lower())` parse in
`SubmitThesisUseCase.execute`. -/
def parseThesisType (s : String) : Option ThesisType :=
  if lowerString s = "draft" then some ThesisType.draft
  else if lowerString s = "final" then some ThesisType.final
  else none

/-- Thesis dataclass construction followed by `__post_init__` running
`_validate`, as performed by `SubmitThesisUseCase.execute`. -/
def mkThesis (title : String) (student_id : Nat) (tt : ThesisType) (id : Nat)
    (description : Option String) (metadata : List (String × String)) (created : Nat) :
    Except DomainError Thesis :=
  let t : Thesis :=
    { title, student_id, thesis_type := tt, id, description, metadata,
      status := ThesisStatus.draft, created_at := created }
  match t.validate with
  | .error e => .error e
  | .ok _ => .ok t

/-- File metadata returned by the storage collaborator's upload. -/
structure FileInfo where
  file_path : String
  file_name : String
  file_size : Nat
  file_type : String
deriving DecidableEq, Repr

/-- The storage collaborator's behaviour for one request, supplied as
data: the `(is_valid, error_message)` pair of `validate_file` and the
outcome of `upload_file` (`.error` is the raised exception text). -/
structure StorageBehavior where
  validateResult : Bool × String
  uploadResult : Except String FileInfo
deriving Repr

/-- `SubmitThesisUseCase.execute`
(`src/application/use_cases/thesis/submit_thesis_use_case.py`
lines 29-128): validate the student, parse the thesis type, build the
entity, then — only when both `file_data` and `file_name` are truthy —
validate and upload the file before the repository `create`; an upload
exception is re-raised as `FileStorageException` and nothing is
persisted. The best-effort notification does not affect the state. -/
def SubmitThesisUseCase.execute (st : RepoState) (dto : ThesisCreateDTO)
    (student_id : Nat) (file_data : Option Nat) (file_name : Option String)
    (storage : StorageBehavior) (thesis_id now : Nat) :
    Except DomainError (RepoState × Thesis) :=
  match getUserById st student_id with
  | none => .error (.validation "Student not found")
  | some student =>
    if student.role ≠ UserRole.student then
      .error (.validation "Only students can submit theses")
    else
      match parseThesisType dto.thesis_type with
      | none => .error (.validation "Invalid thesis type")
      | some tt =>
        match mkThesis dto.title student_id tt thesis_id dto.description
            dto.metadata now with
        | .error e => .error e
        | .ok thesis =>
          let uploadStep : Except DomainError Thesis :=
            if file_data.isSome && truthyStr file_name then
              if storage.validateResult.1 = false then
                .error (.validation ("Invalid file: " ++ storage.validateResult.2))
              else
                match storage.uploadResult with
                | .error e => .error (.fileStorage ("Failed to upload file: " ++ e))
                | .ok fi =>
                    .ok (thesis.update_file_info fi.file_path fi.file_name
                          fi.file_size fi.file_type now)
            else .ok thesis
          match uploadStep with
          | .error e => .error e
          | .ok thesis2 =>
              .ok ({ st with theses := st.theses ++ [thesis2] }, thesis2)

/-- Errors the modelled routes can answer with: `badRequest` covers the
jsonify 400 responses issued directly by the route body, `domainErr`
a domain exception raised by the entity and caught at the boundary. -/
inductive RouteError
  | badRequest (msg : String)
  | domainErr (e : DomainError)
deriving DecidableEq, Repr

/-- The student gate of the `update_thesis_status` route
(`src/api/routes/thesis_routes.py` lines 363-368): a student's request
is answered with 400 "Students can only submit draft theses" exactly
when the thesis is not in DRAFT and the requested status is not
SUBMITTED. -/
def studentRestrictionRejects (current requested : ThesisStatus) : Bool :=
  decide (current ≠ ThesisStatus.draft) && decide (requested ≠ ThesisStatus.submitted)

/-- The `update_thesis_status` route (thesis_routes.py lines 332-399)
after authentication and thesis loading: apply the student gate, then
`thesis.update_status`, persisting on success. -/
def updateThesisStatusRoute (role : UserRole) (thesis : Thesis)
    (requested : ThesisStatus) (now : Nat) : Except RouteError Thesis :=
  if decide (role = UserRole.student) && studentRestrictionRejects thesis.status requested then
    .error (.badRequest "Students can only submit draft theses")
  else
    match thesis.update_status requested now with
    | .ok t => .ok t
    | .error e => .error (.domainErr e)

/-- The `assign_advisor` route (thesis_routes.py lines 440-481) after
authentication and thesis loading: reject when an advisor is already
assigned (`if thesis.advisor_id:`), otherwise assign the acting user. -/
def assignAdvisorRoute (thesis : Thesis) (user_id : Nat) (now : Nat) :
    Except RouteError Thesis :=
  if thesis.advisor_id.isSome then
    .error (.badRequest "This thesis already has an advisor assigned")
  else .ok (thesis.assign_advisor user_id now)

/-! ### Concrete entities for the concrete-instance theorems -/

/-- A freshly created draft thesis. -/
def exampleDraftThesis : Thesis :=
  { title := "Study X", student_id := 1, thesis_type := ThesisType.final, id := 10 }

/-- The same thesis in the terminal APPROVED state. -/
def exampleApprovedThesis : Thesis :=
  { exampleDraftThesis with status := ThesisStatus.approved }

/-- A thesis sent back for revision that had already been submitted
once (`submitted_at` holds the first submission time). -/
def resubThesis : Thesis :=
  { title := "Study X", student_id := 1, thesis_type := ThesisType.final, id := 10,
    status := ThesisStatus.needs_revision, submitted_at := some 5,
    advisor_id := some 2 }

/-- A validated feedback record with no rating and no comments. -/
def exampleFeedback : Feedback :=
  { thesis_id := 10, advisor_id := 2, overall_comments := "ok", id := 100 }

/-! ### Shared lemmas -/

theorem update_status_ok_iff (t : Thesis) (s : ThesisStatus) (now : Nat) :
    (t.update_status s now).isOk = true ↔ s ∈ VALID_STATUS_TRANSITIONS t.status := by
  unfold Thesis.update_status
  by_cases h : s ∈ VALID_STATUS_TRANSITIONS t.status <;> simp [h, Except.isOk, Except.toBool]

theorem update_status_err_of_not_mem (t : Thesis) (s : ThesisStatus) (now : Nat)
    (h : s ∉ VALID_STATUS_TRANSITIONS t.status) :
    t.update_status s now = Except.error (DomainError.invalidStatusTransition t.status s) := by
  unfold Thesis.update_status
  simp [h]

/-! ### C1 -/

/-- C1: `update_status(T)` succeeds iff T is in the transition table's
allowed set for the current status S; otherwise it returns
`InvalidStatusTransitionException` (the entity record is untouched, as
the exception is raised before any field assignment); the terminal
states APPROVED and REJECTED accept no transition at all. -/
theorem update_status_matches_transition_table (t : Thesis) (s : ThesisStatus) (now : Nat) :
    ((t.update_status s now).isOk = true ↔ s ∈ VALID_STATUS_TRANSITIONS t.status)
    ∧ (s ∉ VALID_STATUS_TRANSITIONS t.status →
        t.update_status s now = Except.error (DomainError.invalidStatusTransition t.status s))
    ∧ ((t.status = ThesisStatus.approved ∨ t.status = ThesisStatus.rejected) →
        t.update_status s now = Except.error (DomainError.invalidStatusTransition t.status s)) := by
  refine ⟨update_status_ok_iff t s now, update_status_err_of_not_mem t s now, ?_⟩
  rintro (h | h) <;>
    exact update_status_err_of_not_mem t s now (by simp [h, VALID_STATUS_TRANSITIONS])

/-- Concrete instance of C1: a transition request out of APPROVED is
rejected with `InvalidStatusTransitionException`. -/
theorem update_status_matches_transition_table_witness :
    exampleApprovedThesis.update_status ThesisStatus.submitted 5
      = Except.error (DomainError.invalidStatusTransition
          exampleApprovedThesis.status ThesisStatus.submitted) :=
  (update_status_matches_transition_table exampleApprovedThesis ThesisStatus.submitted 5).2.2
    (Or.inl rfl)

/-! ### C5 -/

/-- C5: every successful entry into SUBMITTED stamps `submitted_at`
with the transition time — unconditionally, so a resubmission after
NEEDS_REVISION overwrites the earlier value — and likewise entering
APPROVED stamps `approved_at` and entering REJECTED stamps
`rejected_at`. -/
theorem update_status_refreshes_side_timestamps (t : Thesis) (s : ThesisStatus) (now : Nat)
    (t2 : Thesis) (h : t.update_status s now = Except.ok t2) :
    (s = ThesisStatus.submitted → t2.submitted_at = some now)
    ∧ (s = ThesisStatus.approved → t2.approved_at = some now)
    ∧ (s = ThesisStatus.rejected → t2.rejected_at = some now) := by
  unfold Thesis.update_status at h
  by_cases hmem : s ∈ VALID_STATUS_TRANSITIONS t.status
  · rw [if_neg (not_not_intro hmem), Except.ok.injEq] at h
    subst h
    refine ⟨?_, ?_, ?_⟩ <;> rintro rfl <;> simp
  · simp [hmem] at h

/-- Concrete instance of C5: resubmitting after NEEDS_REVISION at time
10 overwrites the earlier `submitted_at = some 5`. -/
theorem update_status_refreshes_side_timestamps_witness :
    Thesis.submitted_at { resubThesis with
      status := ThesisStatus.submitted, updated_at := some 10, submitted_at := some 10 }
      = some 10 :=
  (update_status_refreshes_side_timestamps resubThesis ThesisStatus.submitted 10
    { resubThesis with
      status := ThesisStatus.submitted, updated_at := some 10, submitted_at := some 10 }
    rfl).1 rfl

/-! ### C8 -/

/-- C8: the entity-level `assign_advisor` unconditionally overwrites
`advisor_id` and refreshes `updated_at`, even when an advisor is
already assigned — it never rejects; the "already assigned" rejection
lives only in the `assign_advisor` route, which errors exactly when
`advisor_id` is already set and otherwise applies the entity method. -/
theorem assign_advisor_unconditional (t : Thesis) (aid uid now : Nat) :
    (t.assign_advisor aid now
        = { t with advisor_id := some aid, updated_at := some now })
    ∧ (t.advisor_id.isSome = true → assignAdvisorRoute t uid now
        = Except.error (RouteError.badRequest "This thesis already has an advisor assigned"))
    ∧ (t.advisor_id = none → assignAdvisorRoute t uid now
        = Except.ok (t.assign_advisor uid now)) := by
  refine ⟨rfl, ?_, ?_⟩ <;> intro h <;> simp [assignAdvisorRoute, h]

/-- Concrete instance of C8: the entity method overwrites the already
assigned advisor 2 of `resubThesis` with advisor 7, while the route
rejects the same request. -/
theorem assign_advisor_unconditional_witness :
    (resubThesis.assign_advisor 7 11
        = { resubThesis with advisor_id := some 7, updated_at := some 11 })
    ∧ (assignAdvisorRoute resubThesis 7 11
        = Except.error (RouteError.badRequest "This thesis already has an advisor assigned")) :=
  ⟨(assign_advisor_unconditional resubThesis 7 7 11).1,
   (assign_advisor_unconditional resubThesis 7 7 11).2.1 rfl⟩

/-! ### C9 -/

/-- C9: `update_title_description` called with an empty-string title on
a thesis whose current title is non-empty completes without raising —
the empty string is skipped by the `if title:` truthiness guard, the
previous title is kept, and the closing `_validate` passes. -/
theorem update_title_empty_string_no_raise (t : Thesis) (d : Option String) (now : Nat)
    (h : t.title ≠ "") :
    (t.update_title_description (some "") d now).isOk = true
    ∧ (t.update_title_description (some "") d now).map Thesis.title
        = Except.ok t.title := by
  unfold Thesis.update_title_description
  cases d with
  | none => simp [truthyStr, Thesis.validate, h, Except.isOk, Except.toBool, Except.map]
  | some s =>
      by_cases hs : s = ""
      · subst hs
        simp [truthyStr, Thesis.validate, h, Except.isOk, Except.toBool, Except.map]
      · simp [truthyStr, hs, Thesis.validate, h, Except.isOk, Except.toBool, Except.map]

/-- Concrete instance of C9: clearing the title of the example draft
thesis with an empty string is a silent no-op on the title. -/
theorem update_title_empty_string_no_raise_witness :
    (exampleDraftThesis.update_title_description (some "") none 4).map Thesis.title
      = Except.ok exampleDraftThesis.title :=
  (update_title_empty_string_no_raise exampleDraftThesis none 4 (by decide)).2

/-! ### C10 -/

theorem updateCommentList_not_found (l : List FeedbackComment) (cid : Nat) (content : String)
    (h : ∀ c ∈ l, c.id ≠ cid) : updateCommentList l cid content = (false, l) := by
  induction l with
  | nil => rfl
  | cons c rest ih =>
      unfold updateCommentList
      rw [if_neg (h c (List.mem_cons_self c rest))]
      rw [ih (fun x hx => h x (List.mem_cons_of_mem c hx))]

theorem filter_comment_id_not_found (l : List FeedbackComment) (cid : Nat)
    (h : ∀ c ∈ l, c.id ≠ cid) : l.filter (fun c => c.id ≠ cid) = l := by
  apply List.filter_eq_self.mpr
  intro a ha
  simpa using h a ha

/-- C10: `update_comment` and `remove_comment` with a comment id absent
from the comment list return false and leave the feedback record —
comment list, overall comments, rating, recommendations and
`updated_at` — completely unchanged. -/
theorem comment_ops_not_found_frame (f : Feedback) (cid : Nat) (content : String) (now : Nat)
    (h : cid ∉ f.comments.map FeedbackComment.id) :
    f.update_comment cid content now = (false, f)
    ∧ f.remove_comment cid now = (false, f) := by
  have h2 : ∀ c ∈ f.comments, c.id ≠ cid := by
    intro c hc hEq
    exact h (hEq ▸ List.mem_map_of_mem FeedbackComment.id hc)
  constructor
  · unfold Feedback.update_comment
    rw [updateCommentList_not_found f.comments cid content h2]
    simp
  · unfold Feedback.remove_comment
    rw [filter_comment_id_not_found f.comments cid h2]
    simp

/-- Concrete instance of C10: looking up the absent comment id 999 on a
feedback holding one comment with id 7 changes nothing. -/
theorem comment_ops_not_found_frame_witness :
    ({ exampleFeedback with
        comments := [{ content := "fix intro", id := 7 }] } : Feedback).update_comment
          999 "new text" 3
      = (false, { exampleFeedback with comments := [{ content := "fix intro", id := 7 }] }) :=
  (comment_ops_not_found_frame
    { exampleFeedback with comments := [{ content := "fix intro", id := 7 }] }
    999 "new text" 3 (by decide)).1

/-! ### C6 -/

/-- C6: feedback rating validation, both at construction and at
`update_overall_feedback`, accepts `None` and exactly the integers 1-5
and raises ValidationException for every integer outside [1,5] (in
particular 0 and 6); an out-of-range rating is rejected, never
silently clamped (on success the stored rating is the given one). -/
theorem feedback_rating_validation (tid aid fid created now : Nat) (oc : String)
    (rec : Option String) (r : Int) (f : Feedback)
    (hoc : oc ≠ "") (hf : f.overall_comments ≠ "")
    (hfr : ∀ r0, f.rating = some r0 → 1 ≤ r0 ∧ r0 ≤ 5) :
    ((mkFeedback tid aid oc fid (some r) rec created).map Feedback.rating
        = Except.ok (some r) ↔ (1 ≤ r ∧ r ≤ 5))
    ∧ ((r < 1 ∨ r > 5) → mkFeedback tid aid oc fid (some r) rec created
        = Except.error (DomainError.validation "Rating must be between 1 and 5"))
    ∧ ((mkFeedback tid aid oc fid none rec created).map Feedback.rating
        = Except.ok none)
    ∧ ((f.update_overall_feedback none (some r) none now).map Feedback.rating
        = Except.ok (some r) ↔ (1 ≤ r ∧ r ≤ 5))
    ∧ ((r < 1 ∨ r > 5) → f.update_overall_feedback none (some r) none now
        = Except.error (DomainError.validation "Rating must be between 1 and 5"))
    ∧ ((f.update_overall_feedback none none none now).map Feedback.rating
        = Except.ok f.rating) := by
  by_cases hr : r < 1 ∨ r > 5
  · have hr1 : ¬(1 ≤ r ∧ r ≤ 5) := by omega
    refine ⟨?_, ?_, ?_, ?_, ?_, ?_⟩
    · simp [mkFeedback, Feedback.validate, hoc, hr, Except.map, hr1]
    · intro _
      simp [mkFeedback, Feedback.validate, hoc, hr]
    · simp [mkFeedback, Feedback.validate, hoc, Except.map]
    · simp [Feedback.update_overall_feedback, truthyStr, hr, Except.map, hr1]
    · intro _
      simp [Feedback.update_overall_feedback, truthyStr, hr]
    · cases hfrat : f.rating with
      | none => simp [Feedback.update_overall_feedback, truthyStr, Feedback.validate, hf,
          hfrat, Except.map]
      | some r0 =>
          have := hfr r0 hfrat
          have hr0 : ¬(r0 < 1 ∨ r0 > 5) := by omega
          simp [Feedback.update_overall_feedback, truthyStr, Feedback.validate, hf,
            hfrat, hr0, Except.map]
  · have hr2 : 1 ≤ r ∧ r ≤ 5 := by omega
    refine ⟨?_, ?_, ?_, ?_, ?_, ?_⟩
    · simp [mkFeedback, Feedback.validate, hoc, hr, Except.map, hr2]
    · intro hcon
      exact absurd hcon hr
    · simp [mkFeedback, Feedback.validate, hoc, Except.map]
    · simp [Feedback.update_overall_feedback, truthyStr, hr, Feedback.validate, hf,
        Except.map, hr2]
    · intro hcon
      exact absurd hcon hr
    · cases hfrat : f.rating with
      | none => simp [Feedback.update_overall_feedback, truthyStr, Feedback.validate, hf,
          hfrat, Except.map]
      | some r0 =>
          have := hfr r0 hfrat
          have hr0 : ¬(r0 < 1 ∨ r0 > 5) := by omega
          simp [Feedback.update_overall_feedback, truthyStr, Feedback.validate, hf,
            hfrat, hr0, Except.map]

/-- Concrete instance of C6: constructing feedback with rating 6 is
rejected with the rating ValidationException. -/
theorem feedback_rating_validation_witness :
    mkFeedback 10 2 "Good start" 100 (some 6) none 0
      = Except.error (DomainError.validation "Rating must be between 1 and 5") :=
  (feedback_rating_validation 10 2 100 0 0 "Good start" none 6 exampleFeedback
    (by decide) (by decide) (fun r0 h0 => nomatch h0)).2.1 (Or.inr (by norm_num))

/-! ### C4 -/

/-- C4: the feedback-permission decision of the use case equals the
spec predicate — actor role is ADVISOR and (no advisor assigned or the
actor is the assigned advisor) and the thesis status is SUBMITTED or
UNDER_REVIEW; it is false in any other status, true for any advisor on
an unassigned thesis in those statuses, and true only for the assigned
advisor once one is set. -/
theorem feedback_permission_characterisation :
    (∀ role aid t, feedbackPermissionChecks role aid t = canProvideFeedbackSpec role aid t)
    ∧ (∀ role aid t, t.status ∉ [ThesisStatus.submitted, ThesisStatus.under_review] →
        feedbackPermissionChecks role aid t = false)
    ∧ (∀ aid t, t.advisor_id = none →
        t.status ∈ [ThesisStatus.submitted, ThesisStatus.under_review] →
        feedbackPermissionChecks UserRole.advisor aid t = true)
    ∧ (∀ role aid t a, t.advisor_id = some a →
        feedbackPermissionChecks role aid t = true → aid = a) := by
  refine ⟨?_, ?_, ?_, ?_⟩
  · intro role aid t
    cases ha : t.advisor_id with
    | none => simp [feedbackPermissionChecks, canProvideFeedbackSpec, advisorMismatch, ha]
    | some a =>
        by_cases haid : a = aid <;>
          simp [feedbackPermissionChecks, canProvideFeedbackSpec, advisorMismatch, ha, haid,
            Bool.and_comm, Bool.and_assoc, Bool.and_left_comm]
  · intro role aid t hs
    simp [feedbackPermissionChecks, hs]
  · intro aid t ha hs
    simp [feedbackPermissionChecks, advisorMismatch, ha, hs]
  · intro role aid t a ha hperm
    simp [feedbackPermissionChecks, advisorMismatch, ha] at hperm
    exact hperm.2.symm

/-- Concrete instance of C4: an advisor cannot provide feedback on a
draft thesis. -/
theorem feedback_permission_characterisation_witness :
    feedbackPermissionChecks UserRole.advisor 7 exampleDraftThesis = false :=
  feedback_permission_characterisation.2.1 UserRole.advisor 7 exampleDraftThesis (by decide)

/-! ### C2 -/

theorem updateThesisStatusRoute_ok_iff (role : UserRole) (t : Thesis)
    (req : ThesisStatus) (now : Nat) :
    (updateThesisStatusRoute role t req now).isOk = true
      ↔ (¬(role = UserRole.student ∧ studentRestrictionRejects t.status req = true)
          ∧ req ∈ VALID_STATUS_TRANSITIONS t.status) := by
  unfold updateThesisStatusRoute
  by_cases hgate : decide (role = UserRole.student) && studentRestrictionRejects t.status req
  · rw [if_pos hgate]
    simp only [Bool.and_eq_true, decide_eq_true_eq] at hgate
    simp [Except.isOk, Except.toBool, hgate]
  · rw [if_neg hgate]
    simp only [Bool.and_eq_true, decide_eq_true_eq] at hgate
    by_cases hmem : req ∈ VALID_STATUS_TRANSITIONS t.status
    · rw [Thesis.update_status, if_neg (not_not_intro hmem)]
      simp [Except.isOk, Except.toBool, hgate, hmem]
    · rw [update_status_err_of_not_mem t req now hmem]
      simp [Except.isOk, Except.toBool, hmem]

/-- C2 counterexample: the claim says any student request other than
SUBMITTED-from-DRAFT/NEEDS_REVISION is rejected by the role-specific
restriction layer before the transition table is consulted; but the
pair (current DRAFT, requested APPROVED) is such a request and the
route's student gate does not reject it — the request instead falls
through to `update_status` and fails with the transition-table error,
not the student-restriction 400. -/
theorem student_gate_counterexample :
    studentRestrictionRejects ThesisStatus.draft ThesisStatus.approved = false
    ∧ ¬(ThesisStatus.approved = ThesisStatus.submitted
        ∧ (ThesisStatus.draft = ThesisStatus.draft
            ∨ ThesisStatus.draft = ThesisStatus.needs_revision))
    ∧ updateThesisStatusRoute UserRole.student exampleDraftThesis ThesisStatus.approved 7
        = Except.error (RouteError.domainErr
            (DomainError.invalidStatusTransition ThesisStatus.draft ThesisStatus.approved)) := by
  refine ⟨rfl, by decide, rfl⟩

/-- C2 (amended): the route's student gate rejects exactly when the
current status is not DRAFT and the requested status is not SUBMITTED;
requests that pass it are still subject to the transition table, so
the (current, requested) pairs a student can successfully effect are
exactly DRAFT→SUBMITTED and NEEDS_REVISION→SUBMITTED — but a request
such as APPROVED-from-DRAFT passes the role layer and is rejected by
the transition table instead. An advisor or admin may request any
transition legal per the table. -/
theorem student_transition_route_characterisation (t : Thesis) (req : ThesisStatus)
    (now : Nat) :
    (studentRestrictionRejects t.status req = true
        ↔ (t.status ≠ ThesisStatus.draft ∧ req ≠ ThesisStatus.submitted))
    ∧ ((updateThesisStatusRoute UserRole.student t req now).isOk = true
        ↔ ((t.status = ThesisStatus.draft ∨ t.status = ThesisStatus.needs_revision)
            ∧ req = ThesisStatus.submitted))
    ∧ (∀ role, (role = UserRole.advisor ∨ role = UserRole.admin) →
        ((updateThesisStatusRoute role t req now).isOk = true
          ↔ req ∈ VALID_STATUS_TRANSITIONS t.status)) := by
  refine ⟨?_, ?_, ?_⟩
  · simp [studentRestrictionRejects]
  · rw [updateThesisStatusRoute_ok_iff]
    generalize t.status = S
    cases S <;> cases req <;>
      simp [studentRestrictionRejects, VALID_STATUS_TRANSITIONS]
  · rintro role (rfl | rfl) <;>
      · rw [updateThesisStatusRoute_ok_iff]
        simp

/-- Concrete instance of the amended C2: an advisor's request is
governed by the transition table alone. -/
theorem student_transition_route_characterisation_witness :
    (updateThesisStatusRoute UserRole.advisor exampleDraftThesis ThesisStatus.submitted 3).isOk
        = true
      ↔ ThesisStatus.submitted ∈ VALID_STATUS_TRANSITIONS exampleDraftThesis.status :=
  (student_transition_route_characterisation exampleDraftThesis ThesisStatus.submitted 3).2.2
    UserRole.advisor (Or.inl rfl)

/-! ### C7 -/

/-- C7: in `SubmitThesisUseCase.execute`, when a file is provided and
the storage collaborator's upload raises, the use case raises
`FileStorageException` wrapping the storage error and no thesis is
persisted — the `.error` result is produced before the repository
`create` step, so no state leaves the use case. -/
theorem submit_thesis_upload_failure_atomic (st : RepoState) (dto : ThesisCreateDTO)
    (student : User) (tt : ThesisType) (sid tid now d : Nat) (fn errMsg vmsg : String)
    (storage : StorageBehavior)
    (hstud : getUserById st sid = some student)
    (hrole : student.role = UserRole.student)
    (htt : parseThesisType dto.thesis_type = some tt)
    (htitle : dto.title ≠ "")
    (hfn : fn ≠ "")
    (hval : storage.validateResult = (true, vmsg))
    (hup : storage.uploadResult = Except.error errMsg) :
    SubmitThesisUseCase.execute st dto sid (some d) (some fn) storage tid now
      = Except.error (DomainError.fileStorage ("Failed to upload file: " ++ errMsg))
    ∧ ∀ st2 th,
        SubmitThesisUseCase.execute st dto sid (some d) (some fn) storage tid now
          ≠ Except.ok (st2, th) := by
  have hmain : SubmitThesisUseCase.execute st dto sid (some d) (some fn) storage tid now
      = Except.error (DomainError.fileStorage ("Failed to upload file: " ++ errMsg)) := by
    unfold SubmitThesisUseCase.execute
    rw [hstud]
    simp only [hrole, htt, mkThesis, Thesis.validate, htitle, hval, hup, truthyStr,
      Option.isSome, hfn, if_neg, ite_false, ite_true]
    simp [htitle, hfn, hval, hup]
  exact ⟨hmain, fun st2 th => by rw [hmain]; exact fun hcon => nomatch hcon⟩

/-- The acting student and advisor used by the concrete-instance
theorems. -/
def exampleStudent : User := { id := 1, role := UserRole.student }

def exampleAdvisor : User := { id := 2, role := UserRole.advisor }

/-- A submitted thesis with no advisor assigned. -/
def exampleSubmittedThesis : Thesis :=
  { title := "Study X", student_id := 1, thesis_type := ThesisType.final, id := 10,
    status := ThesisStatus.submitted, submitted_at := some 5 }

/-- Repositories holding the two users and the submitted thesis. -/
def exampleState : RepoState :=
  { users := [exampleStudent, exampleAdvisor], theses := [exampleSubmittedThesis],
    feedbacks := [] }

/-- Concrete instance of C7: the upload fails with "connection reset"
and the use case surfaces `FileStorageException`. -/
theorem submit_thesis_upload_failure_atomic_witness :
    SubmitThesisUseCase.execute exampleState
        { title := "Study X", thesis_type := "final" } 1 (some 77) (some "thesis.pdf")
        { validateResult := (true, ""), uploadResult := Except.error "connection reset" }
        11 6
      = Except.error (DomainError.fileStorage ("Failed to upload file: " ++ "connection reset")) :=
  (submit_thesis_upload_failure_atomic exampleState
    { title := "Study X", thesis_type := "final" } exampleStudent ThesisType.final
    1 11 6 77 "thesis.pdf" "connection reset" ""
    { validateResult := (true, ""), uploadResult := Except.error "connection reset" }
    rfl rfl (by decide) (by decide) (by decide) rfl rfl).1

/-! ### C3 -/

theorem find?_thesis_id_eq (l : List Thesis) (tid : Nat) (t : Thesis)
    (h : l.find? (fun x => x.id = tid) = some t) : t.id = tid := by
  have := List.find?_some h
  simpa using this

theorem find?_map_update (l : List Thesis) (tid : Nat) (told tnew : Thesis)
    (hfind : l.find? (fun x => x.id = tid) = some told)
    (hnew : tnew.id = tid) :
    (l.map (fun x => if x.id = tnew.id then tnew else x)).find? (fun x => x.id = tid)
      = some tnew := by
  induction l with
  | nil => simp at hfind
  | cons a as ih =>
      by_cases ha : a.id = tid
      · simp only [List.map_cons]
        rw [if_pos (by rw [ha, hnew])]
        exact List.find?_cons_of_pos _ (by simpa using hnew)
      · rw [List.find?_cons_of_neg _ (by simpa using ha)] at hfind
        simp only [List.map_cons]
        rw [if_neg (by rw [hnew]; exact ha)]
        rw [List.find?_cons_of_neg _ (by simpa using ha)]
        exact ih hfind

theorem updateThesisRepo_getThesisById (st : RepoState) (told tnew : Thesis) (tid : Nat)
    (hfind : getThesisById st tid = some told) (hnew : tnew.id = tid) :
    getThesisById (updateThesisRepo st tnew) tid = some tnew :=
  find?_map_update st.theses tid told tnew hfind hnew

theorem addCommentsFromDTO_contents (cs : List FeedbackCommentCreateDTO) (f : Feedback)
    (cid0 now : Nat) :
    (addCommentsFromDTO f cs cid0 now).comments.map FeedbackComment.content
      = f.comments.map FeedbackComment.content
          ++ cs.map FeedbackCommentCreateDTO.content := by
  induction cs generalizing f cid0 with
  | nil => simp [addCommentsFromDTO]
  | cons c rest ih =>
      rw [addCommentsFromDTO, ih]
      simp [Feedback.add_comment]

/-- C3: executing ProvideFeedback for an advisor on a SUBMITTED thesis
with no advisor assigned succeeds, auto-assigns the acting advisor,
advances the thesis to UNDER_REVIEW, and appends exactly one feedback
record whose comments carry the submitted contents in submission
order. -/
theorem provide_feedback_happy_path (st : RepoState) (dto : FeedbackCreateDTO)
    (advisor : User) (thesis : Thesis) (aid fid cid0 now : Nat)
    (hadv : getUserById st aid = some advisor)
    (hrole : advisor.role = UserRole.advisor)
    (hth : getThesisById st dto.thesis_id = some thesis)
    (hstat : thesis.status = ThesisStatus.submitted)
    (hunassigned : thesis.advisor_id = none)
    (hoc : dto.overall_comments ≠ "")
    (hrat : ∀ r, dto.rating = some r → 1 ≤ r ∧ r ≤ 5) :
    ∃ st2 fb, ProvideFeedbackUseCase.execute st dto aid fid cid0 now = Except.ok (st2, fb)
      ∧ st2.feedbacks = st.feedbacks ++ [fb]
      ∧ fb.comments.map FeedbackComment.content
          = dto.comments.map FeedbackCommentCreateDTO.content
      ∧ ∃ t2, getThesisById st2 dto.thesis_id = some t2
          ∧ t2.advisor_id = some aid ∧ t2.status = ThesisStatus.under_review := by
  have hTid : thesis.id = dto.thesis_id := find?_thesis_id_eq st.theses dto.thesis_id thesis hth
  -- step 6 of the use case: the advisor auto-assignment
  set t1 : Thesis := thesis.assign_advisor aid now with ht1
  have ht1stat : t1.status = ThesisStatus.submitted := hstat
  have ht1id : t1.id = dto.thesis_id := hTid
  have ht1adv : t1.advisor_id = some aid := rfl
  -- step 7: the auto-advance SUBMITTED → UNDER_REVIEW
  set t2c : Thesis := { t1 with status := ThesisStatus.under_review, updated_at := some now }
    with ht2c
  have hupd : t1.update_status ThesisStatus.under_review now = Except.ok t2c := by
    unfold Thesis.update_status
    rw [ht1stat]
    simp [VALID_STATUS_TRANSITIONS]
  -- the feedback entity construction
  set fb0 : Feedback :=
    { thesis_id := dto.thesis_id, advisor_id := aid,
      overall_comments := dto.overall_comments, id := fid, comments := [],
      rating := dto.rating, recommendations := dto.recommendations,
      created_at := now, updated_at := none } with hfb0def
  have hfb0eq : mkFeedback dto.thesis_id aid dto.overall_comments fid
      dto.rating dto.recommendations now = Except.ok fb0 := by
    cases hr : dto.rating with
    | none => simp [mkFeedback, Feedback.validate, hoc, hfb0def, hr]
    | some r =>
        have hrr := hrat r hr
        have hw : ¬(r < 1 ∨ r > 5) := by omega
        simp [mkFeedback, Feedback.validate, hoc, hfb0def, hr, hw]
  have hfb0c : fb0.comments = [] := rfl
  set stMid : RepoState := updateThesisRepo (updateThesisRepo st t1) t2c with hstMid
  set fbFin : Feedback := addCommentsFromDTO fb0 dto.comments cid0 now with hfbFin
  refine ⟨{ stMid with feedbacks := stMid.feedbacks ++ [fbFin] }, fbFin, ?_, ?_, ?_, ?_⟩
  · unfold ProvideFeedbackUseCase.execute
    rw [hadv]
    simp only [hrole, ne_eq, not_true_eq_false, if_false, ite_false]
    rw [hth]
    simp only [hstat, hunassigned, advisorMismatch, List.mem_cons, List.mem_singleton,
      List.not_mem_nil, or_false, not_true_eq_false, if_false, ite_false, reduceIte]
    simp only [← ht1, ht1stat, if_true, hupd, hfb0eq]
    simp
  · rw [hstMid]
    simp [updateThesisRepo]
  · rw [addCommentsFromDTO_contents, hfb0c]
    simp
  · refine ⟨t2c, ?_, ht1adv, rfl⟩
    have hmid : getThesisById (updateThesisRepo st t1) dto.thesis_id = some t1 :=
      updateThesisRepo_getThesisById st thesis t1 dto.thesis_id hth ht1id
    have hfin : getThesisById (updateThesisRepo (updateThesisRepo st t1) t2c)
        dto.thesis_id = some t2c :=
      updateThesisRepo_getThesisById (updateThesisRepo st t1) t1 t2c dto.thesis_id hmid ht1id
    simpa [getThesisById] using hfin

/-- The feedback request the example advisor submits on the example
thesis: two positioned comments in order. -/
def exampleDTO : FeedbackCreateDTO :=
  { thesis_id := 10, overall_comments := "Good start", rating := some 4,
    comments := [{ content := "tighten the abstract" }, { content := "fix citations" }] }

/-- Concrete instance of C3: the example advisor's feedback on the
unassigned submitted thesis goes through. -/
theorem provide_feedback_happy_path_witness :
    (ProvideFeedbackUseCase.execute exampleState exampleDTO 2 100 200 9).isOk = true := by
  obtain ⟨st2, fb, heq, -, -, -⟩ := provide_feedback_happy_path exampleState exampleDTO
    exampleAdvisor exampleSubmittedThesis 2 100 200 9 rfl rfl rfl rfl rfl
    (by decide)
    (fun r h0 => by
      have h1 : (4 : Int) = r := by simpa [exampleDTO] using h0
      omega)
  rw [heq]
  rfl

end DraftDeck
